import Mathlib

/-!
Verification development for the travel-concierge agent
(`app/main.py`, `app/rag/retriever.py`, `app/tools/weather.py`,
`app/tools/fx.py`).  The Python source is shallowly embedded: pure
processing steps become Lean functions, external collaborators
(the completion service, `json.loads`, the Cosmos vector store, the
HTTP data providers) become explicit oracle parameters, and Python
exceptions become `Except` values.  Components of the repository whose
files are not part of the source tree we were given (the session state
machine `app/state.py`, `ShortTermMemory` in `app/memory.py`, and the
`TripPlan` pydantic model in `app/models.py`) are modelled from the
specification, as marked in their doc comments.
-/

namespace TravelAgent

/-- JSON values, the shape of every payload the pipeline builds
(Python dicts / lists / strings / numbers produced by `main.py` and the
tools).  Numbers are modelled as rationals. -/
inductive Json where
  | null : Json
  | bool (b : Bool) : Json
  | num (q : ℚ) : Json
  | str (s : String) : Json
  | arr (elems : List Json) : Json
  | obj (fields : List (String × Json)) : Json

/-- Field lookup in a JSON object (first binding wins), `none` on
non-objects or missing keys. -/
def Json.get : Json → String → Option Json
  | .obj fields, key => fields.lookup key
  | _, _ => none

/-- Extract a string value. -/
def Json.asStr : Json → Option String
  | .str s => some s
  | _ => none

/-- Extract a list of strings. -/
def strListOf : List Json → Option (List String)
  | [] => some []
  | j :: js =>
    match j.asStr, strListOf js with
    | some s, some l => some (s :: l)
    | _, _ => none

/-- Extract a list of strings from a JSON array. -/
def Json.asStrList : Json → Option (List String)
  | .arr es => strListOf es
  | _ => none

/-- Extract a number. -/
def Json.asNum : Json → Option ℚ
  | .num q => some q
  | _ => none

/-- The `metadata.data_quality` field of a response envelope. -/
def dataQuality (env : Json) : Option String :=
  (env.get "metadata").bind fun m => (m.get "data_quality").bind Json.asStr

/-- The `raw_response` field of a fallback envelope. -/
def rawResponse (env : Json) : Option String :=
  (env.get "raw_response").bind Json.asStr

/-- The `metadata.parse_error` field of the parse-fallback envelope. -/
def parseErrorField (env : Json) : Option String :=
  (env.get "metadata").bind fun m => (m.get "parse_error").bind Json.asStr

/-- The `metadata.validation_error` field of the schema-fallback envelope. -/
def validationErrorField (env : Json) : Option String :=
  (env.get "metadata").bind fun m => (m.get "validation_error").bind Json.asStr

/-- The `trip_plan.citations` field of a success envelope. -/
def planCitations (env : Json) : Option (List String) :=
  (env.get "trip_plan").bind fun p => (p.get "citations").bind Json.asStrList

/-!
## Session state machine

Modelled from the spec: `app/state.py` (class `AgentState`) is not part
of the source tree we were given; only its caller `main.py` is.  The
spec fixes the phase sequence `Init → Received → Dispatched → Completed
→ Validated` plus a terminal absorbing `Failed`, with `advance()`
moving one step along the sequence and failing with `InvalidTransition`
when called after `Failed` or past `Validated`, and `fail(reason)`
jumping to `Failed` from anywhere.
-/

/-- The request phases of the session state machine. -/
inductive Phase where
  | init | received | dispatched | completed | validated | failed
deriving DecidableEq

/-- Modelled from the spec: `AgentState.advance()` moves to the next
phase in the fixed sequence, and raises `InvalidTransition` after
`Failed` or past `Validated`. -/
def Phase.advance : Phase → Except String Phase
  | .init => .ok .received
  | .received => .ok .dispatched
  | .dispatched => .ok .completed
  | .completed => .ok .validated
  | .validated => .error "InvalidTransition"
  | .failed => .error "InvalidTransition"

/-- Modelled from the spec: `fail(reason)` transitions to `Failed` from
any phase and is terminal. -/
def Phase.fail : Phase → Phase := fun _ => .failed

/-- `advance()` applied `n` times from `p`, failing as soon as one step
fails. -/
def advanceN : Nat → Phase → Except String Phase
  | 0, p => .ok p
  | n + 1, p => p.advance.bind (advanceN n)

/-!
## Short-term memory

Modelled from the spec: `app/memory.py` (class `ShortTermMemory`) is
not part of the source tree we were given.  The spec: `add(role,
content)` appends a conversation item; after each append, drop oldest
items while `count > max_items` OR `estimated_token_count(remaining) >
max_tokens`; the token estimate is content length / 4.  Timestamps are
not modelled (no claim depends on them).
-/

/-- One conversation item (role, content). -/
structure ConvItem where
  role : String
  content : String
deriving DecidableEq

/-- Modelled from the spec: estimated token count of one item, content
length / 4. -/
def estTokens (it : ConvItem) : Nat := it.content.length / 4

/-- Total estimated token count of a window. -/
def totalTokens (l : List ConvItem) : Nat := (l.map estTokens).sum

/-- Short-term memory: immutable budget plus the window, oldest first. -/
structure ShortTermMemory where
  maxItems : Nat
  maxTokens : Nat
  items : List ConvItem

/-- Modelled from the spec: the eviction loop — drop the oldest item
while `count > max_items` or the estimated token count exceeds
`max_tokens`. -/
def evict (maxItems maxTokens : Nat) : List ConvItem → List ConvItem
  | [] => []
  | x :: xs =>
    if (x :: xs).length > maxItems ∨ totalTokens (x :: xs) > maxTokens then
      evict maxItems maxTokens xs
    else
      x :: xs

/-- Modelled from the spec: `add(role, content)` appends an item and
then runs the eviction loop. -/
def ShortTermMemory.add (m : ShortTermMemory) (role content : String) :
    ShortTermMemory :=
  { m with items := evict m.maxItems m.maxTokens (m.items ++ [⟨role, content⟩]) }

/-- A fresh memory with the given budget. -/
def ShortTermMemory.empty (maxItems maxTokens : Nat) : ShortTermMemory :=
  ⟨maxItems, maxTokens, []⟩

/-- Folding a sequence of `add` calls over a memory. -/
def addAll (m : ShortTermMemory) (ops : List (String × String)) :
    ShortTermMemory :=
  ops.foldl (fun m op => m.add op.1 op.2) m

/-!
## Response pipeline (`run_request`, `app/main.py` lines 266-340)

The extraction step (`find('\x7b')` / `rfind('\x7d')` and the slice) is
embedded directly.  `json.loads` is the Python standard library, an
external collaborator here: it is an oracle parameter
`parse : String → Except String Json`.  The `TripPlan` pydantic model
lives in `app/models.py`, which is not part of the source tree we were
given; it is modelled from the spec below.
-/

/-- Embeds the JSON-substring extraction of `run_request`: Python's
`json_start = find('\x7b')`, `json_end = rfind('\x7d') + 1`, raising
`ValueError("No JSON found in response")` when `json_start == -1` or
`json_end == 0`, else taking the slice `text[json_start:json_end]`. -/
def extractJson (text : String) : Except String String :=
  let cs := text.toList
  match cs.findIdx? (· == '\x7b'), cs.reverse.findIdx? (· == '\x7d') with
  | some jsonStart, some r =>
      let jsonEnd := cs.length - 1 - r + 1
      .ok (String.mk ((cs.take jsonEnd).drop jsonStart))
  | _, _ => .error "No JSON found in response"

/-- Modelled from the spec: one entry of `TripPlan.results`
(`\x7btitle, snippet, url, price_range, rating, category\x7d`); per the
spec all optional fields are nullable. -/
structure SearchResult where
  title : Option String
  snippet : Option String
  url : Option String
  price_range : Option String
  rating : Option ℚ
  category : Option String
deriving DecidableEq

/-- Modelled from the spec: the `TripPlan` structured-output contract —
destination, travel_dates, optional weather block, optional list of
result entries, optional card_recommendation, optional currency_info,
list of citation URLs, list of next_steps; optional fields nullable. -/
structure TripPlan where
  destination : String
  travel_dates : String
  weather : Option Json
  results : Option (List SearchResult)
  card_recommendation : Option Json
  currency_info : Option Json
  citations : Option (List String)
  next_steps : Option (List String)

/-- Optional string field: missing or `null` is `none`; a non-string
value is a validation error. -/
def optStrField (j : Json) (key : String) : Except String (Option String) :=
  match j.get key with
  | none => .ok none
  | some .null => .ok none
  | some (.str s) => .ok (some s)
  | some _ => .error (key ++ ": expected string")

/-- Optional numeric field: missing or `null` is `none`. -/
def optNumField (j : Json) (key : String) : Except String (Option ℚ) :=
  match j.get key with
  | none => .ok none
  | some .null => .ok none
  | some (.num q) => .ok (some q)
  | some _ => .error (key ++ ": expected number")

/-- Optional structured sub-block kept as raw JSON (missing or `null`
is `none`). -/
def optJsonField (j : Json) (key : String) : Option Json :=
  match j.get key with
  | none => none
  | some .null => none
  | some v => some v

/-- Required string field: missing, `null` or non-string is a
validation error. -/
def reqStrField (j : Json) (key : String) : Except String String :=
  match j.get key with
  | some (.str s) => .ok s
  | _ => .error (key ++ ": field required as string")

/-- Optional list-of-strings field: missing or `null` is `none`; an
array whose elements are not all strings, or a non-array, is a
validation error. -/
def optStrListField (j : Json) (key : String) :
    Except String (Option (List String)) :=
  match j.get key with
  | none => .ok none
  | some .null => .ok none
  | some (.arr es) =>
      match (Json.arr es).asStrList with
      | some l => .ok (some l)
      | none => .error (key ++ ": expected list of strings")
  | some _ => .error (key ++ ": expected list of strings")

/-- Modelled from the spec: validation of one result entry. -/
def validateResult (j : Json) : Except String SearchResult :=
  match j with
  | .obj _ => do
      let title ← optStrField j "title"
      let snippet ← optStrField j "snippet"
      let url ← optStrField j "url"
      let priceRange ← optStrField j "price_range"
      let rating ← optNumField j "rating"
      let category ← optStrField j "category"
      pure ⟨title, snippet, url, priceRange, rating, category⟩
  | _ => .error "result entry: expected object"

/-- Optional list of result entries: missing or `null` is `none`. -/
def optResultsField (j : Json) (key : String) :
    Except String (Option (List SearchResult)) :=
  match j.get key with
  | none => .ok none
  | some .null => .ok none
  | some (.arr es) => do
      let rs ← es.mapM validateResult
      pure (some rs)
  | some _ => .error (key ++ ": expected list")

/-- Modelled from the spec: `TripPlan(**response_data)` — schema
validation of the parsed JSON against the TripPlan contract
(`app/models.py` is not in the source tree we were given). -/
def validateTripPlan (j : Json) : Except String TripPlan :=
  match j with
  | .obj _ => do
      let destination ← reqStrField j "destination"
      let travelDates ← reqStrField j "travel_dates"
      let results ← optResultsField j "results"
      let citations ← optStrListField j "citations"
      let nextSteps ← optStrListField j "next_steps"
      pure ⟨destination, travelDates, optJsonField j "weather", results,
            optJsonField j "card_recommendation",
            optJsonField j "currency_info", citations, nextSteps⟩
  | _ => .error "TripPlan: expected object"

/-- The URL kept by the citation repair: Python keeps `r.url` when it
is truthy, i.e. present and non-empty. -/
def urlOf (r : SearchResult) : Option String :=
  match r.url with
  | some u => if u = "" then none else some u
  | none => none

/-- Embeds `run_request` lines 284-286: if `citations` is falsy
(absent, null or empty) and `results` is truthy (non-empty), set
`citations` to the truthy URLs of the results, in order. -/
def repairCitations (tp : TripPlan) : TripPlan :=
  if tp.citations.getD [] = [] ∧ tp.results.getD [] ≠ [] then
    { tp with citations := some ((tp.results.getD []).filterMap urlOf) }
  else tp

/-- JSON of an optional string (Python `None` → `null`). -/
def optStrJson : Option String → Json
  | some s => .str s
  | none => .null

/-- JSON of an optional number. -/
def optNumJson : Option ℚ → Json
  | some q => .num q
  | none => .null

/-- JSON of an optional sub-block. -/
def optJson : Option Json → Json
  | some j => j
  | none => .null

/-- `model_dump()` of one result entry. -/
def SearchResult.dump (r : SearchResult) : Json :=
  .obj [("title", optStrJson r.title), ("snippet", optStrJson r.snippet),
        ("url", optStrJson r.url), ("price_range", optStrJson r.price_range),
        ("rating", optNumJson r.rating), ("category", optStrJson r.category)]

/-- `trip_plan.model_dump()`: the validated plan as JSON. -/
def TripPlan.dump (tp : TripPlan) : Json :=
  .obj [("destination", .str tp.destination),
        ("travel_dates", .str tp.travel_dates),
        ("weather", optJson tp.weather),
        ("results", match tp.results with
          | some rs => .arr (rs.map SearchResult.dump)
          | none => .null),
        ("card_recommendation", optJson tp.card_recommendation),
        ("currency_info", optJson tp.currency_info),
        ("citations", match tp.citations with
          | some cs => .arr (cs.map Json.str)
          | none => .null),
        ("next_steps", match tp.next_steps with
          | some ns => .arr (ns.map Json.str)
          | none => .null)]

/-- Outcome of the three-tier extraction/validation of `run_request`. -/
inductive Tier where
  | validated (plan : TripPlan)
  | parseFail (err : String)
  | schemaFail (err : String)

/-- Embeds the `try/except` routing of `run_request` lines 266-336:
extraction failure (`ValueError`) and JSON parse failure
(`JSONDecodeError`) are caught by the first handler (parse fallback);
a schema-validation failure is caught by the generic handler (schema
fallback); on success the citations are repaired.  The routing of
validation errors to the schema fallback follows the spec's error
taxonomy for the pydantic exception raised by the missing
`app/models.py`. -/
def pipeline (parse : String → Except String Json) (text : String) : Tier :=
  match extractJson text with
  | .error e => .parseFail e
  | .ok s =>
    match parse s with
    | .error e => .parseFail e
    | .ok j =>
      match validateTripPlan j with
      | .error e => .schemaFail e
      | .ok tp => .validated (repairCitations tp)

/-- The `data_quality` string the code writes for each tier
(`app/main.py` lines 297, 314, 331). -/
def tierTag : Tier → String
  | .validated _ => "validated_with_pydantic"
  | .parseFail _ => "unvalidated"
  | .schemaFail _ => "validation_failed"

/-- The success envelope built at `app/main.py` lines 292-300. -/
def successEnvelope (tp : TripPlan) (sessionId : String)
    (memoryItems : Nat) : Json :=
  .obj [("trip_plan", tp.dump),
        ("metadata", .obj [("session_id", .str sessionId),
                           ("tools_called", .arr [.str "automatic_via_llm"]),
                           ("data_quality", .str "validated_with_pydantic"),
                           ("memory_items", .num memoryItems)])]

/-- The parse-fallback envelope built at `app/main.py` lines 309-317. -/
def unvalidatedEnvelope (raw sessionId err : String) : Json :=
  .obj [("raw_response", .str raw),
        ("metadata", .obj [("session_id", .str sessionId),
                           ("tools_called", .arr [.str "automatic_via_llm"]),
                           ("data_quality", .str "unvalidated"),
                           ("parse_error", .str err)])]

/-- The schema-fallback envelope built at `app/main.py` lines 326-334. -/
def validationFailedEnvelope (raw sessionId err : String) : Json :=
  .obj [("raw_response", .str raw),
        ("metadata", .obj [("session_id", .str sessionId),
                           ("tools_called", .arr [.str "automatic_via_llm"]),
                           ("data_quality", .str "validation_failed"),
                           ("validation_error", .str err)])]

/-- The top-level failure envelope of `app/main.py` line 340. -/
def failedEnvelope (e : String) : Json :=
  .obj [("error", .str e), ("status", .str "failed")]

/-- The envelope `run_request` builds from the assistant text. -/
def responseEnvelope (parse : String → Except String Json)
    (text sessionId : String) (memoryItems : Nat) : Json :=
  match pipeline parse text with
  | .validated tp => successEnvelope tp sessionId memoryItems
  | .parseFail e => unvalidatedEnvelope text sessionId e
  | .schemaFail e => validationFailedEnvelope text sessionId e

/-- External collaborators of `run_request` as oracles: the outcome of
`validate_all_config()` plus kernel creation, the outcome of the
completion call (final assistant text), and `json.loads`.  Long-term
memory writes are absorbed by the code (`try/except` + log) and have no
observable effect on the envelope, so they are not modelled. -/
structure Oracle where
  configOk : Except String Unit
  completion : Except String String
  parse : String → Except String Json

/-- The body of `run_request`'s outer `try`: config validation, memory
appends, the four state-machine advances, the completion call, and the
three-tier response pipeline.  Any uncaught error escapes as
`Except.error`. -/
def runRequestE (o : Oracle) (sessionId : String) (mem0 : ShortTermMemory)
    (userInput : String) : Except String Json := do
  let _ ← o.configOk
  let mem1 := mem0.add "user" userInput
  let s1 ← Phase.init.advance
  let s2 ← s1.advance
  let resp ← o.completion
  let s3 ← s2.advance
  let mem2 := mem1.add "assistant" (resp.take 500)
  match pipeline o.parse resp with
  | .validated tp => do
      let _ ← s3.advance
      pure (successEnvelope tp sessionId mem2.items.length)
  | .parseFail e => pure (unvalidatedEnvelope resp sessionId e)
  | .schemaFail e => pure (validationFailedEnvelope resp sessionId e)

/-- Embeds `run_request` (`app/main.py` lines 85-340): the outer
`except Exception` turns any uncaught failure into the
`\x7berror, status: "failed"\x7d` envelope. -/
def runRequest (o : Oracle) (sessionId : String) (mem0 : ShortTermMemory)
    (userInput : String) : Json :=
  match runRequestE o sessionId mem0 userInput with
  | .ok env => env
  | .error e => failedEnvelope e

/-!
## Retrieval engine (`app/rag/retriever.py`)

`retrieve` is embedded with its external collaborators as oracles: the
Cosmos client (possibly unavailable), the embedding provider
(`embed_texts`, which raises on any provider failure), and the vector
store query.  The store query's semantics is modelled from the SQL the
source sends (`SELECT TOP @k ... ORDER BY VectorDistance(...)
... WHERE IS_DEFINED(c.embedding) AND IS_ARRAY(c.embedding) [AND c.pk
= @pk]`), with `VectorDistance` (cosine distance) as an abstract metric.
-/

/-- One stored document of the Cosmos container; `embedding = none`
models a document without a defined array embedding (filtered out by
the query's `IS_DEFINED`/`IS_ARRAY` clause). -/
structure StoreDoc where
  id : String
  text : String
  pk : String
  embedding : Option (List ℚ)

/-- One row returned by the vector search (`id`, `text`, `pk`,
`distance`). -/
structure RetrievalRow where
  id : String
  text : String
  pk : String
  distance : ℚ
deriving DecidableEq

/-- Comparison by distance, the query's `ORDER BY`. -/
def rowLE (a b : RetrievalRow) : Prop := a.distance ≤ b.distance

instance : DecidableRel rowLE := fun a b => inferInstanceAs (Decidable (a.distance ≤ b.distance))

instance : IsTotal RetrievalRow rowLE := ⟨fun a b => le_total a.distance b.distance⟩

instance : IsTrans RetrievalRow rowLE := ⟨fun _ _ _ => le_trans⟩

/-- The vector store: its documents, the `VectorDistance` metric
(cosine, provided by Cosmos — abstract here), and a possible failure of
`query_items`. -/
structure VectorStore where
  docs : List StoreDoc
  dist : List ℚ → List ℚ → ℚ
  queryFailure : Option String

/-- The partition filter actually applied: Python's
`if partition_key:` is falsy for `None` and for the empty string. -/
def effectivePk : Option String → Option String
  | some p => if p = "" then none else some p
  | none => none

/-- Models the nearest-neighbor query the source issues: keep documents
with a defined array embedding (and matching `pk` when a truthy
partition key is given), order by ascending `VectorDistance` to the
query vector, truncate to `k`. -/
def queryTopK (store : VectorStore) (k : Nat) (qvec : List ℚ)
    (pk : Option String) : List RetrievalRow :=
  let rows := store.docs.filterMap fun d =>
    match d.embedding with
    | some e =>
        match effectivePk pk with
        | some p => if d.pk = p then some ⟨d.id, d.text, d.pk, store.dist e qvec⟩ else none
        | none => some ⟨d.id, d.text, d.pk, store.dist e qvec⟩
    | none => none
  (List.insertionSort rowLE rows).take k

/-- The retriever's external collaborators: `get_cosmos_client()`
(`none` when the connection failed and the client is `None`) and
`embed_texts` (raises on provider failure, malformed results, or
non-numeric elements). -/
structure RetrieverEnv where
  store : Option VectorStore
  embedTexts : List String → Except String (List (List ℚ))

/-- The body of `retrieve`'s `try` block (`app/rag/retriever.py` lines
69-127): check the client, embed the query, take the first vector
(`query_embedding[0] if query_embedding else []`), reject a falsy
vector, then run the store query (which may itself raise). -/
def retrieveE (env : RetrieverEnv) (query : String) (k : Nat)
    (pk : Option String) : Except String (List RetrievalRow) := do
  let store ← match env.store with
    | none => .error "Cosmos DB not available"
    | some s => pure s
  let embs ← env.embedTexts [query]
  let qvec := embs.headD []
  if qvec = [] then
    .error "Invalid embedding format"
  else
    match store.queryFailure with
    | some e => .error e
    | none => pure (queryTopK store k qvec pk)

/-- Embeds `retrieve`: the enclosing `except Exception` returns the
empty list on any failure (`app/rag/retriever.py` lines 128-130). -/
def retrieve (env : RetrieverEnv) (query : String) (k : Nat)
    (pk : Option String) : List RetrievalRow :=
  match retrieveE env query k pk with
  | .ok rs => rs
  | .error _ => []

/-!
## Weather tool (`app/tools/weather.py`)

The two HTTP calls (geocoding, forecast) are external; the embedded
function is the processing step from the parsed forecast data
(`temps_max`, `temps_min`, `weather_codes`) to the returned JSON.
Temperatures are rationals; `round(x, d)` is modelled by rounding
`x * 10^d` to the nearest integer (Python's float `round` differs only
on halfway ties, on which no claim depends).
-/

/-- `round(x, d)`: round to `d` decimal places. -/
def roundTo (q : ℚ) (d : Nat) : ℚ := (round (q * 10 ^ d) : ℤ) / 10 ^ d

/-- Embeds `interpret_code` (`app/tools/weather.py` lines 77-85):
code ≤ 1 → sunny, ≤ 3 → cloudy, > 50 → rainy, otherwise mixed. -/
def interpret_code (code : ℤ) : String :=
  if code ≤ 1 then "sunny"
  else if code ≤ 3 then "cloudy"
  else if code > 50 then "rainy"
  else "mixed"

/-- Number of occurrences of `s` in `l` (the value
`condition_counts[s]` after the counting loop). -/
def countOcc (l : List String) (s : String) : Nat := (l.filter (· = s)).length

/-- The keys of `condition_counts` in insertion order: Python dicts
preserve first-insertion order. -/
def firstSeenKeys (l : List String) : List String :=
  l.foldl (fun acc c => if c ∈ acc then acc else acc ++ [c]) []

/-- One step of `max(keys, key=f)`: a later key replaces the best seen
so far only when strictly better, so the first maximum wins. -/
def argmaxStep {α : Type} (f : α → Nat) (best : Option α) (c : α) : Option α :=
  match best with
  | none => some c
  | some b => if f c > f b then some c else best

/-- `max(keys, key=f)`: the first key (in iteration order) attaining
the maximal value of `f`; `none` on an empty sequence (Python raises
`ValueError`). -/
def argmaxFirst {α : Type} (f : α → Nat) (keys : List α) : Option α :=
  keys.foldl (argmaxStep f) none

/-- Embeds `max(condition_counts, key=condition_counts.get)` over the
per-day categories (`app/tools/weather.py` lines 87-92). -/
def dominantCondition (conds : List String) : Option String :=
  argmaxFirst (countOcc conds) (firstSeenKeys conds)

/-- The per-condition base recommendation (lines 95-102). -/
def baseRecommendation (dom : String) : String :=
  if dom = "sunny" then "Great weather! Pack sunscreen and light clothing."
  else if dom = "cloudy" then "Expect overcast skies. Bring layers for varying temperatures."
  else if dom = "rainy" then "Rain expected. Pack an umbrella and waterproof jacket."
  else "Mixed conditions expected. Pack for various weather types."

/-- The temperature-band advice appended at lines 105-108. -/
def tempAdvice (avgTemp : ℚ) (rec : String) : String :=
  if avgTemp < 10 then rec ++ " Cold temperatures - bring warm clothing."
  else if avgTemp > 30 then rec ++ " Hot weather - stay hydrated and seek shade."
  else rec

/-- Embeds the processing step of `WeatherTools.get_weather`
(`app/tools/weather.py` lines 56-122) from the parsed forecast fields
to the result JSON.  An empty category mapping makes `max()` raise, which
the generic handler (lines 132-139) turns into the error shape. -/
def get_weather (cityName country : String) (tempsMax tempsMin : List ℚ)
    (weatherCodes : List ℤ) : Json :=
  if tempsMax = [] ∨ tempsMin = [] then
    Json.obj [("error", .str "No temperature data available"),
              ("temperature_c", .null),
              ("conditions", .str "unknown"),
              ("recommendation", .str "Unable to get weather data")]
  else
    let avgMax := tempsMax.sum / (tempsMax.length : ℚ)
    let avgMin := tempsMin.sum / (tempsMin.length : ℚ)
    let avgTemp := (avgMax + avgMin) / 2
    match dominantCondition (weatherCodes.map interpret_code) with
    | none =>
        Json.obj [("error", .str "Weather tool error: max() arg is an empty sequence"),
                  ("temperature_c", .null),
                  ("conditions", .str "unknown"),
                  ("recommendation", .str "An error occurred")]
    | some dom =>
        Json.obj [("city", .str cityName), ("country", .str country),
                  ("temperature_c", .num (roundTo avgTemp 1)),
                  ("temperature_max_c", .num (roundTo avgMax 1)),
                  ("temperature_min_c", .num (roundTo avgMin 1)),
                  ("conditions", .str dom),
                  ("recommendation", .str (tempAdvice avgTemp (baseRecommendation dom))),
                  ("forecast_days", .num (tempsMax.length : ℚ))]

/-!
## FX tool (`app/tools/fx.py`)

The HTTP call to the Frankfurter API is external; the embedded function
is the success-path computation after a converted amount was found in
the response (`app/tools/fx.py` lines 56-70).
-/

/-- Embeds the success path of `FxTools.convert_fx`: the rate is
`converted_amount / amount` only when `amount > 0`, else `0`; the
converted amount is rounded to 2 decimal places and the rate to 6. -/
def convert_fx_success (amount convertedAmount : ℚ)
    (base target date : String) : Json :=
  let rate : ℚ := if amount > 0 then convertedAmount / amount else 0
  Json.obj [("base", .str base), ("target", .str target),
            ("amount", .num amount),
            ("converted_amount", .num (roundTo convertedAmount 2)),
            ("rate", .num (roundTo rate 6)),
            ("date", .str date)]

/-- Numeric field accessor for result JSON. -/
def numField (j : Json) (key : String) : Option ℚ :=
  (j.get key).bind Json.asNum

/-- String field accessor for result JSON. -/
def strField (j : Json) (key : String) : Option String :=
  (j.get key).bind Json.asStr

/-- Average of a list, `sum(l) / len(l)` (as computed at
`app/tools/weather.py` lines 71-72). -/
def avgOf (l : List ℚ) : ℚ := l.sum / (l.length : ℚ)

/-!
## Helper lemmas
-/

/-- Round-tripping a string list through JSON. -/
theorem asStrList_map_str (l : List String) :
    Json.asStrList (.arr (l.map Json.str)) = some l := by
  induction l with
  | nil => rfl
  | cons s l ih =>
      simp only [Json.asStrList] at *
      simp [strListOf, Json.asStr, ih]

/-!
## Claim theorems
-/

/-- C2 counterexample: the claim says five `advance()` calls from
`Init` reach `Validated`; on the spec's phase sequence `Init → Received
→ Dispatched → Completed → Validated` the fifth call is already past
`Validated` and fails with `InvalidTransition`. -/
theorem C2_counterexample :
    advanceN 5 .init = .error "InvalidTransition" ∧
    advanceN 5 .init ≠ .ok .validated :=
  ⟨rfl, fun h => nomatch h⟩

/-- C2 (amended): four `advance()` calls from `Init` reach `Validated`;
a fifth fails with `InvalidTransition`; and in general `advance()`
fails with `InvalidTransition` exactly after `Failed` or past
`Validated`. -/
theorem C2_advance_sequence :
    advanceN 4 .init = .ok .validated ∧
    advanceN 5 .init = .error "InvalidTransition" ∧
    ∀ p : Phase,
      (∃ e, p.advance = .error e) ↔ (p = .validated ∨ p = .failed) := by
  refine ⟨rfl, rfl, fun p => ?_⟩
  cases p <;> simp [Phase.advance]

/-- C10: in the fx tool the rate is `converted_amount / amount` only
when `amount > 0`; for `amount ≤ 0` the reported rate is `0` (no
division is performed), and on success the converted amount is rounded
to 2 decimal places and the rate to 6. -/
theorem C10_fx_rate_guard (amount convertedAmount : ℚ)
    (base target date : String) :
    (amount ≤ 0 →
      numField (convert_fx_success amount convertedAmount base target date)
        "rate" = some 0) ∧
    (0 < amount →
      numField (convert_fx_success amount convertedAmount base target date)
        "rate" = some (roundTo (convertedAmount / amount) 6)) ∧
    (∃ n : ℤ, numField (convert_fx_success amount convertedAmount base target date)
        "converted_amount" = some ((n : ℚ) / 10 ^ 2)) ∧
    (∃ n : ℤ, numField (convert_fx_success amount convertedAmount base target date)
        "rate" = some ((n : ℚ) / 10 ^ 6)) := by
  refine ⟨?_, ?_, ?_, ?_⟩
  · intro h
    have hng : ¬ amount > 0 := not_lt.mpr h
    simp [convert_fx_success, numField, Json.get, Json.asNum, hng, roundTo, List.lookup]
  · intro h
    simp [convert_fx_success, numField, Json.get, Json.asNum, h, List.lookup]
  · exact ⟨round (convertedAmount * 10 ^ 2), by
      simp [convert_fx_success, numField, Json.get, Json.asNum, roundTo, List.lookup]⟩
  · exact ⟨round ((if amount > 0 then convertedAmount / amount else 0) * 10 ^ 6), by
      simp [convert_fx_success, numField, Json.get, Json.asNum, roundTo, List.lookup]⟩

/-- C10 witness: at `amount = -1` the rate is `0`; at `amount = 4`,
`convertedAmount = 1` the rate is `0.25`. -/
theorem C10_fx_rate_guard_witness :
    numField (convert_fx_success (-1) 5 "USD" "EUR" "2026-01-02") "rate" = some 0 ∧
    numField (convert_fx_success 4 1 "USD" "EUR" "2026-01-02") "rate" =
      some (roundTo (1 / 4) 6) :=
  ⟨(C10_fx_rate_guard (-1) 5 "USD" "EUR" "2026-01-02").1 (by norm_num),
   (C10_fx_rate_guard 4 1 "USD" "EUR" "2026-01-02").2.1 (by norm_num)⟩

/-- Suffixes are preserved by appending on the right. -/
theorem suffix_append_right {α : Type} {x y : List α} (h : x <:+ y)
    (c : List α) : x ++ c <:+ y ++ c := by
  obtain ⟨t, rfl⟩ := h
  exact ⟨t, (List.append_assoc t x c).symm⟩

/-- The eviction loop only drops from the front: its result is a suffix
of its input. -/
theorem evict_suffix (maxItems maxTokens : Nat) :
    ∀ l : List ConvItem, evict maxItems maxTokens l <:+ l := by
  intro l
  induction l with
  | nil => exact List.suffix_rfl
  | cons x xs ih =>
      rw [evict]
      split
      · exact ih.trans (List.suffix_cons x xs)
      · exact List.suffix_rfl

/-- After the eviction loop both budget bounds hold. -/
theorem evict_bounds (maxItems maxTokens : Nat) :
    ∀ l : List ConvItem,
      (evict maxItems maxTokens l).length ≤ maxItems ∧
      totalTokens (evict maxItems maxTokens l) ≤ maxTokens := by
  intro l
  induction l with
  | nil => simp [evict, totalTokens]
  | cons x xs ih =>
      rw [evict]
      split
      · exact ih
      · next h =>
          rcases not_or.mp h with ⟨h1, h2⟩
          exact ⟨Nat.le_of_not_lt h1, Nat.le_of_not_lt h2⟩

/-- A run of `add` calls leaves the window a suffix of the full append
sequence. -/
theorem addAll_items_suffix :
    ∀ (ops : List (String × String)) (m : ShortTermMemory),
      (addAll m ops).items <:+
        m.items ++ ops.map (fun op => (⟨op.1, op.2⟩ : ConvItem)) := by
  intro ops
  induction ops with
  | nil => intro m; simp [addAll]
  | cons op ops ih =>
      intro m
      have h1 := ih (m.add op.1 op.2)
      have h2 : (m.add op.1 op.2).items <:+ m.items ++ [⟨op.1, op.2⟩] :=
        evict_suffix _ _ _
      have h3 := suffix_append_right h2
        (ops.map (fun op => (⟨op.1, op.2⟩ : ConvItem)))
      simp only [addAll, List.foldl_cons] at *
      refine (h1.trans h3).trans ?_
      rw [List.map_cons, List.append_assoc]
      exact List.suffix_rfl

/-- A run of `add` calls keeps both budget bounds, given they hold
initially. -/
theorem addAll_bounds :
    ∀ (ops : List (String × String)) (m : ShortTermMemory),
      m.items.length ≤ m.maxItems → totalTokens m.items ≤ m.maxTokens →
      (addAll m ops).items.length ≤ m.maxItems ∧
        totalTokens (addAll m ops).items ≤ m.maxTokens := by
  intro ops
  induction ops with
  | nil => intro m h1 h2; simpa [addAll] using ⟨h1, h2⟩
  | cons op ops ih =>
      intro m _ _
      simp only [addAll, List.foldl_cons] at *
      exact ih (m.add op.1 op.2)
        (evict_bounds m.maxItems m.maxTokens _).1
        (evict_bounds m.maxItems m.maxTokens _).2

/-- C8: for every sequence of `add(role, content)` calls the short-term
memory evicts from the front only: the final window is a suffix of the
full append sequence (so it holds exactly the most recent items in
their original oldest-first order), and both the item bound and the
token bound hold. -/
theorem C8_memory_eviction (maxItems maxTokens : Nat)
    (ops : List (String × String)) :
    (addAll (ShortTermMemory.empty maxItems maxTokens) ops).items <:+
      ops.map (fun op => (⟨op.1, op.2⟩ : ConvItem)) ∧
    (addAll (ShortTermMemory.empty maxItems maxTokens) ops).items.length ≤
      maxItems ∧
    totalTokens (addAll (ShortTermMemory.empty maxItems maxTokens) ops).items ≤
      maxTokens := by
  refine ⟨?_, ?_⟩
  · simpa [ShortTermMemory.empty] using
      addAll_items_suffix ops (ShortTermMemory.empty maxItems maxTokens)
  · exact addAll_bounds ops (ShortTermMemory.empty maxItems maxTokens)
      (by simp [ShortTermMemory.empty])
      (by simp [ShortTermMemory.empty, totalTokens])

/-- Reduction of a successful `Except` bind. -/
theorem exbind_ok {ε α β : Type} (a : α) (f : α → Except ε β) :
    (Except.ok a >>= f : Except ε β) = f a := rfl

/-- Reduction of a pure `Except` bind. -/
theorem expure_bind {ε α β : Type} (a : α) (f : α → Except ε β) :
    ((pure a : Except ε α) >>= f) = f a := rfl

/-- Reduction of a failing `Except` bind. -/
theorem exbind_error {ε α β : Type} (e : ε) (f : α → Except ε β) :
    ((Except.error e : Except ε α) >>= f) = Except.error e := rfl

/-- The store query returns at most `k` rows. -/
theorem queryTopK_length_le (store : VectorStore) (k : Nat) (qvec : List ℚ)
    (pk : Option String) : (queryTopK store k qvec pk).length ≤ k := by
  simp only [queryTopK, List.length_take]
  omega

/-- The store query returns rows sorted by non-decreasing distance. -/
theorem queryTopK_sorted (store : VectorStore) (k : Nat) (qvec : List ℚ)
    (pk : Option String) : (queryTopK store k qvec pk).Sorted rowLE :=
  List.Pairwise.sublist (List.take_sublist k _)
    (List.sorted_insertionSort rowLE _)

/-- C5: `retrieve` returns the empty sequence — not a raised error —
whenever any step fails: the Cosmos client is unavailable, the
embedding call raises, the embedding result is empty or its first
vector is empty, or the store query raises; and in general every
failure of the body maps to the empty sequence (nothing propagates). -/
theorem C5_retrieve_failures_empty (env : RetrieverEnv) (query : String)
    (k : Nat) (pk : Option String) :
    (env.store = none → retrieve env query k pk = []) ∧
    (∀ e, env.embedTexts [query] = .error e → retrieve env query k pk = []) ∧
    (∀ embs, env.embedTexts [query] = .ok embs → embs.headD [] = [] →
      retrieve env query k pk = []) ∧
    (∀ store e, env.store = some store → store.queryFailure = some e →
      retrieve env query k pk = []) ∧
    (∀ e, retrieveE env query k pk = .error e → retrieve env query k pk = []) := by
  refine ⟨?_, ?_, ?_, ?_, ?_⟩
  · intro hs
    unfold retrieve retrieveE
    rw [hs]
    rfl
  · intro e he
    unfold retrieve retrieveE
    cases hs : env.store with
    | none => rfl
    | some store => rw [he]; rfl
  · intro embs he hq
    unfold retrieve retrieveE
    cases hs : env.store with
    | none => rfl
    | some store =>
        rw [he]
        simp only [exbind_ok, expure_bind]
        rw [if_pos hq]
  · intro store e hs hf
    unfold retrieve retrieveE
    rw [hs]
    cases he : env.embedTexts [query] with
    | error e2 => rfl
    | ok embs =>
        by_cases hq : embs.headD [] = []
        · simp only [exbind_ok, expure_bind]
          rw [if_pos hq]
        · simp only [exbind_ok, expure_bind]
          rw [if_neg hq, hf]
  · intro e h
    unfold retrieve
    rw [h]

/-- C5 witness: with the Cosmos client unavailable, retrieval yields
the empty sequence. -/
theorem C5_retrieve_failures_empty_witness :
    retrieve ⟨none, fun _ => .ok [[1]]⟩ "lounge access" 5 none = [] :=
  (C5_retrieve_failures_empty ⟨none, fun _ => .ok [[1]]⟩
    "lounge access" 5 none).1 rfl

/-- C6: `retrieve` never returns more than `k` results (so at most 5
for `k = 5`) and the result is sorted by non-decreasing distance; this
holds on the success path by the `TOP @k ... ORDER BY VectorDistance`
query and trivially on the empty-sequence failure path. -/
theorem C6_retrieve_bounded_sorted (env : RetrieverEnv) (query : String)
    (k : Nat) (pk : Option String) :
    (retrieve env query k pk).length ≤ k ∧
    (retrieve env query k pk).Sorted rowLE := by
  unfold retrieve retrieveE
  cases hs : env.store with
  | none =>
      simp only [exbind_error]
      simp
  | some store =>
      cases he : env.embedTexts [query] with
      | error e =>
          simp only [exbind_error]
          simp
      | ok embs =>
          by_cases hq : embs.headD [] = []
          · simp only [exbind_ok, expure_bind]
            rw [if_pos hq]
            simp
          · cases hf : store.queryFailure with
            | some e =>
                simp only [exbind_ok, expure_bind]
                rw [if_neg hq, hf]
                simp
            | none =>
                simp only [exbind_ok, expure_bind]
                rw [if_neg hq, hf]
                exact ⟨queryTopK_length_le store k (embs.headD []) pk,
                       queryTopK_sorted store k (embs.headD []) pk⟩

/-- The fold underlying `argmaxFirst`, seeded with a candidate, ends in
some element that is at least as good as the seed and as every list
element. -/
theorem argmaxFirst_go {α : Type} (f : α → Nat) :
    ∀ (keys : List α) (b : α),
      ∃ a, keys.foldl (argmaxStep f) (some b) = some a ∧
        (a = b ∨ a ∈ keys) ∧ f b ≤ f a ∧ ∀ c ∈ keys, f c ≤ f a := by
  intro keys
  induction keys with
  | nil => intro b; exact ⟨b, rfl, Or.inl rfl, le_refl _, by simp⟩
  | cons c keys ih =>
      intro b
      have hstep : argmaxStep f (some b) c =
          if f c > f b then some c else some b := rfl
      by_cases h : f c > f b
      · obtain ⟨a, ha, hmem, hle, hall⟩ := ih c
        refine ⟨a, ?_, ?_, ?_, ?_⟩
        · rw [List.foldl_cons, hstep, if_pos h]; exact ha
        · rcases hmem with rfl | hmm2
          · exact Or.inr (List.mem_cons_self _ _)
          · exact Or.inr (List.mem_cons_of_mem _ hmm2)
        · exact le_trans (le_of_lt h) hle
        · intro d hd
          rcases List.mem_cons.mp hd with rfl | hmm2
          · exact hle
          · exact hall d hmm2
      · obtain ⟨a, ha, hmem, hle, hall⟩ := ih b
        refine ⟨a, ?_, ?_, ?_, ?_⟩
        · rw [List.foldl_cons, hstep, if_neg h]; exact ha
        · rcases hmem with rfl | hmm2
          · exact Or.inl rfl
          · exact Or.inr (List.mem_cons_of_mem _ hmm2)
        · exact hle
        · intro d hd
          rcases List.mem_cons.mp hd with rfl | hmm2
          · exact le_trans (Nat.le_of_not_lt h) hle
          · exact hall d hmm2

/-- On a non-empty key list, `argmaxFirst` returns a member attaining
the maximal value of `f`. -/
theorem argmaxFirst_spec {α : Type} (f : α → Nat) (keys : List α)
    (h : keys ≠ []) :
    ∃ a, argmaxFirst f keys = some a ∧ a ∈ keys ∧ ∀ c ∈ keys, f c ≤ f a := by
  cases keys with
  | nil => exact absurd rfl h
  | cons k ks =>
      obtain ⟨a, ha, hmem, hle, hall⟩ := argmaxFirst_go f ks k
      refine ⟨a, ha, ?_, ?_⟩
      · rcases hmem with rfl | hmm2
        · exact List.mem_cons_self _ _
        · exact List.mem_cons_of_mem _ hmm2
      · intro d hd
        rcases List.mem_cons.mp hd with rfl | hmm2
        · exact hle
        · exact hall d hmm2

/-- Folding insertion-order deduplication preserves membership. -/
theorem mem_firstSeen_aux :
    ∀ (l acc : List String) (a : String),
      (a ∈ l.foldl (fun acc c => if c ∈ acc then acc else acc ++ [c]) acc) ↔
        (a ∈ acc ∨ a ∈ l) := by
  intro l
  induction l with
  | nil => intro acc a; simp
  | cons c l ih =>
      intro acc a
      rw [List.foldl_cons]
      by_cases hc : c ∈ acc
      · rw [if_pos hc, ih]
        constructor
        · rintro (h | h)
          · exact Or.inl h
          · exact Or.inr (List.mem_cons_of_mem _ h)
        · rintro (h | h)
          · exact Or.inl h
          · rcases List.mem_cons.mp h with rfl | h
            · exact Or.inl hc
            · exact Or.inr h
      · rw [if_neg hc, ih]
        simp only [List.mem_append, List.mem_cons, List.mem_singleton,
          List.not_mem_nil, or_false]
        tauto

/-- The first-seen key list has the same members as the input. -/
theorem mem_firstSeenKeys (l : List String) (a : String) :
    a ∈ firstSeenKeys l ↔ a ∈ l := by
  have := mem_firstSeen_aux l [] a
  simpa [firstSeenKeys] using this

/-- For a non-empty window, the dominant condition exists, occurs in
the window, and is (weakly) the most frequent category. -/
theorem dominantCondition_spec (conds : List String) (h : conds ≠ []) :
    ∃ dom, dominantCondition conds = some dom ∧ dom ∈ conds ∧
      ∀ c ∈ conds, countOcc conds c ≤ countOcc conds dom := by
  obtain ⟨c, hc⟩ := List.exists_mem_of_ne_nil conds h
  have hck : c ∈ firstSeenKeys conds := (mem_firstSeenKeys conds c).mpr hc
  have hne : firstSeenKeys conds ≠ [] := List.ne_nil_of_mem hck
  obtain ⟨dom, hdom, hmem, hall⟩ := argmaxFirst_spec (countOcc conds) _ hne
  exact ⟨dom, hdom, (mem_firstSeenKeys conds dom).mp hmem,
    fun d hd => hall d ((mem_firstSeenKeys conds d).mpr hd)⟩

/-- C7: for a non-empty forecast window, each day is classified by the
fixed thresholds (`interpret_code`), the reported condition is the most
frequent category (ties resolved by the dict's first-insertion order,
as `argmaxFirst` over `firstSeenKeys`), the recommendation is the base
text for the dominant condition with cold advice appended when the
average temperature is below 10°C and hot advice when above 30°C, and
for codes `[0,0,2,2,2,60,60]` the dominant condition is `cloudy`. -/
theorem C7_weather_classification (cityName country : String)
    (tempsMax tempsMin : List ℚ) (codes : List ℤ)
    (hM : tempsMax ≠ []) (hm : tempsMin ≠ []) (hc : codes ≠ []) :
    ∃ dom, dominantCondition (codes.map interpret_code) = some dom ∧
      strField (get_weather cityName country tempsMax tempsMin codes)
        "conditions" = some dom ∧
      dom ∈ codes.map interpret_code ∧
      (∀ c ∈ codes.map interpret_code,
        countOcc (codes.map interpret_code) c ≤
          countOcc (codes.map interpret_code) dom) ∧
      strField (get_weather cityName country tempsMax tempsMin codes)
        "recommendation" =
        some (tempAdvice ((avgOf tempsMax + avgOf tempsMin) / 2)
          (baseRecommendation dom)) ∧
      (∀ (avg : ℚ) (rec : String), avg < 10 →
        tempAdvice avg rec = rec ++ " Cold temperatures - bring warm clothing.") ∧
      (∀ (avg : ℚ) (rec : String), avg > 30 →
        tempAdvice avg rec = rec ++ " Hot weather - stay hydrated and seek shade.") ∧
      (∀ (avg : ℚ) (rec : String), 10 ≤ avg → avg ≤ 30 →
        tempAdvice avg rec = rec) ∧
      (∀ code : ℤ, interpret_code code =
        if code ≤ 1 then "sunny" else if code ≤ 3 then "cloudy"
        else if code > 50 then "rainy" else "mixed") ∧
      dominantCondition ([0, 0, 2, 2, 2, 60, 60].map interpret_code) =
        some "cloudy" := by
  have hcodes : codes.map interpret_code ≠ [] :=
    fun hnil => hc (List.map_eq_nil_iff.mp hnil)
  obtain ⟨dom, hdom, hmem, hall⟩ :=
    dominantCondition_spec (codes.map interpret_code) hcodes
  have hif : ¬(tempsMax = [] ∨ tempsMin = []) := not_or.mpr ⟨hM, hm⟩
  refine ⟨dom, hdom, ?_, hmem, hall, ?_, ?_, ?_, ?_, ?_, ?_⟩
  · unfold get_weather
    rw [if_neg hif, hdom]
    simp [strField, Json.get, Json.asStr, List.lookup]
  · unfold get_weather
    rw [if_neg hif, hdom]
    simp [strField, Json.get, Json.asStr, List.lookup, avgOf]
  · intro avg rec h
    simp [tempAdvice, h]
  · intro avg rec h
    have h2 : ¬ avg < 10 := by linarith
    simp [tempAdvice, h, h2]
  · intro avg rec h1 h2
    have h3 : ¬ avg < 10 := by linarith
    have h4 : ¬ avg > 30 := by linarith
    simp [tempAdvice, h3, h4]
  · intro code
    rfl
  · decide

/-- C7 witness: concrete forecast data exercising the theorem — the
dominant condition for codes `[0,0,2,2,2,60,60]` is `cloudy`. -/
theorem C7_weather_classification_witness :
    strField (get_weather "Paris" "France" [20] [10] [0, 0, 2, 2, 2, 60, 60])
      "conditions" = some "cloudy" := by
  obtain ⟨dom, h1, h2, -⟩ :=
    C7_weather_classification "Paris" "France" [20] [10] [0, 0, 2, 2, 2, 60, 60]
      (by decide) (by decide) (by decide)
  have hd : dominantCondition ([0, 0, 2, 2, 2, 60, 60].map interpret_code) =
      some "cloudy" := by decide
  rw [h1] at hd
  rw [Option.some_inj.mp hd] at h2
  exact h2

/-- A concrete parse oracle: on any input it returns a fixed
syntactically valid trip-plan JSON (stands in for `json.loads` on one
concrete extracted substring). -/
def sampleParse : String → Except String Json := fun _ =>
  .ok (.obj [("destination", .str "Paris, France"),
             ("travel_dates", .str "2026-05-01 to 2026-05-05"),
             ("results", .arr
               [.obj [("title", .str "Cafe Lumiere"),
                      ("url", .str "https://maps.example/cafe")],
                .obj [("title", .str "Hotel Azur"), ("url", .str "")],
                .obj [("title", .str "Louvre")]]),
             ("next_steps", .arr [.str "Book flights"])])

/-- A concrete run: config valid, completion returns a braced response,
parsing yields `sampleParse`'s plan. -/
def sampleOracle : Oracle :=
  ⟨.ok (), .ok "Here you go: \x7b...\x7d", sampleParse⟩

/-- A concrete run whose assistant response contains no braces at all
(the parse oracle is never consulted). -/
def noJsonOracle : Oracle :=
  ⟨.ok (), .ok "ehm, sorry, no plan today",
   fun _ => .error "Expecting value: line 1 column 1"⟩

/-- A concrete run whose extracted substring fails to parse as JSON. -/
def badParseOracle : Oracle :=
  ⟨.ok (), .ok "look: \x7boops\x7d",
   fun _ => .error "Expecting value: line 1 column 2"⟩

/-- A concrete run whose configuration validation fails. -/
def badConfigOracle : Oracle :=
  ⟨.error "Missing AZURE_OPENAI_ENDPOINT", .ok "unused",
   fun _ => .error "unused"⟩

/-- Under successful configuration and completion, `run_request`
returns the three-tier envelope built from the assistant text. -/
theorem runRequest_ok (o : Oracle) (sessionId : String)
    (mem0 : ShortTermMemory) (userInput text : String)
    (hc : o.configOk = .ok ()) (hr : o.completion = .ok text) :
    runRequest o sessionId mem0 userInput =
      responseEnvelope o.parse text sessionId
        (((mem0.add "user" userInput).add "assistant"
          (text.take 500)).items.length) := by
  unfold runRequest runRequestE responseEnvelope
  rw [hc, hr]
  simp only [Phase.advance, exbind_ok, expure_bind]
  cases hp : pipeline o.parse text <;> rfl

/-- C1 counterexample: on a schema-valid assistant response the
envelope's `data_quality` is the string `validated_with_pydantic`
(`app/main.py` line 297), which is none of the three values the claim
allows. -/
theorem C1_counterexample :
    dataQuality (runRequest sampleOracle "sess-1"
      (ShortTermMemory.empty 10 4000) "plan paris") =
      some "validated_with_pydantic" ∧
    (some "validated_with_pydantic" : Option String) ∉
      [some "validated_with_schema", some "unvalidated",
       some "validation_failed"] :=
  ⟨rfl, by decide⟩

/-- C1 (amended): for every assistant response processed by
`run_request`, `data_quality` is exactly one of
`validated_with_pydantic` (extracted JSON parses and passes TripPlan
validation), `unvalidated` (extraction or JSON parsing fails), or
`validation_failed` (JSON parses but schema validation fails) — the
tier tag of the pipeline outcome. -/
theorem C1_data_quality (o : Oracle) (sessionId : String)
    (mem0 : ShortTermMemory) (userInput text : String)
    (hc : o.configOk = .ok ()) (hr : o.completion = .ok text) :
    dataQuality (runRequest o sessionId mem0 userInput) =
      some (tierTag (pipeline o.parse text)) ∧
    tierTag (pipeline o.parse text) ∈
      ["validated_with_pydantic", "unvalidated", "validation_failed"] := by
  rw [runRequest_ok o sessionId mem0 userInput text hc hr]
  unfold responseEnvelope
  cases pipeline o.parse text with
  | validated tp => exact ⟨rfl, by simp [tierTag]⟩
  | parseFail e => exact ⟨rfl, by simp [tierTag]⟩
  | schemaFail e => exact ⟨rfl, by simp [tierTag]⟩

/-- C1 witness: a parse oracle that fails on everything puts the
concrete run in the `unvalidated` tier. -/
theorem C1_data_quality_witness :
    dataQuality (runRequest noJsonOracle "sess-2"
      (ShortTermMemory.empty 10 4000) "hello") = some "unvalidated" := by
  have h := (C1_data_quality noJsonOracle "sess-2"
    (ShortTermMemory.empty 10 4000) "hello"
    "ehm, sorry, no plan today" rfl rfl).1
  exact h.trans (by rfl)

/-- C3: when the extracted JSON parses and validates as a TripPlan
whose citations are empty or absent and whose results are non-empty,
the returned plan's citations are exactly the truthy URL fields of the
results in their original order (empty URLs skipped), and the envelope
is tagged with the validated tier. -/
theorem C3_citations_autofill (o : Oracle) (sessionId : String)
    (mem0 : ShortTermMemory) (userInput text s : String) (j : Json)
    (tp : TripPlan)
    (hc : o.configOk = .ok ()) (hr : o.completion = .ok text)
    (hx : extractJson text = .ok s) (hp : o.parse s = .ok j)
    (hv : validateTripPlan j = .ok tp)
    (hcit : tp.citations.getD [] = []) (hres : tp.results.getD [] ≠ []) :
    dataQuality (runRequest o sessionId mem0 userInput) =
      some "validated_with_pydantic" ∧
    planCitations (runRequest o sessionId mem0 userInput) =
      some ((tp.results.getD []).filterMap urlOf) := by
  have hpipe : pipeline o.parse text = .validated (repairCitations tp) := by
    simp only [pipeline, hx, hp, hv]
  have hrep : repairCitations tp =
      { tp with citations := some ((tp.results.getD []).filterMap urlOf) } := by
    unfold repairCitations
    rw [if_pos ⟨hcit, hres⟩]
  rw [runRequest_ok o sessionId mem0 userInput text hc hr]
  unfold responseEnvelope
  rw [hpipe, hrep]
  refine ⟨rfl, ?_⟩
  unfold planCitations successEnvelope TripPlan.dump Json.get
  simp [List.lookup, asStrList_map_str]

/-- C3 witness: a concrete validated plan with absent citations and
three results (one truthy URL, one empty, one missing) yields exactly
the one truthy URL as citation. -/
theorem C3_citations_autofill_witness :
    planCitations (runRequest sampleOracle "sess-1"
      (ShortTermMemory.empty 10 4000) "plan paris") =
      some ["https://maps.example/cafe"] := by
  have h := C3_citations_autofill sampleOracle "sess-1"
    (ShortTermMemory.empty 10 4000) "plan paris"
    "Here you go: \x7b...\x7d" "\x7b...\x7d"
    (.obj [("destination", .str "Paris, France"),
           ("travel_dates", .str "2026-05-01 to 2026-05-05"),
           ("results", .arr
             [.obj [("title", .str "Cafe Lumiere"),
                    ("url", .str "https://maps.example/cafe")],
              .obj [("title", .str "Hotel Azur"), ("url", .str "")],
              .obj [("title", .str "Louvre")]]),
           ("next_steps", .arr [.str "Book flights"])])
    ⟨"Paris, France", "2026-05-01 to 2026-05-05", none,
     some [⟨some "Cafe Lumiere", none, some "https://maps.example/cafe",
            none, none, none⟩,
           ⟨some "Hotel Azur", none, some "", none, none, none⟩,
           ⟨some "Louvre", none, none, none, none, none⟩],
     none, none, none, some ["Book flights"]⟩
    rfl rfl rfl rfl rfl rfl (by decide)
  exact h.2.trans (by rfl)

/-- C4: whenever the assistant text contains no opening or no closing
brace, the envelope is the parse fallback: `data_quality =
unvalidated`, the payload is the raw text verbatim, and the parse error
is reported; the same fallback is taken when the extracted substring
fails to parse as JSON. -/
theorem C4_parse_fallback (o : Oracle) (sessionId : String)
    (mem0 : ShortTermMemory) (userInput text : String)
    (hc : o.configOk = .ok ()) (hr : o.completion = .ok text) :
    (((∀ c ∈ text.toList, c ≠ '\x7b') ∨ (∀ c ∈ text.toList, c ≠ '\x7d')) →
      dataQuality (runRequest o sessionId mem0 userInput) = some "unvalidated" ∧
      rawResponse (runRequest o sessionId mem0 userInput) = some text ∧
      parseErrorField (runRequest o sessionId mem0 userInput) =
        some "No JSON found in response") ∧
    (∀ s e, extractJson text = .ok s → o.parse s = .error e →
      dataQuality (runRequest o sessionId mem0 userInput) = some "unvalidated" ∧
      rawResponse (runRequest o sessionId mem0 userInput) = some text ∧
      parseErrorField (runRequest o sessionId mem0 userInput) = some e) := by
  rw [runRequest_ok o sessionId mem0 userInput text hc hr]
  constructor
  · intro h
    have hx : extractJson text = .error "No JSON found in response" := by
      unfold extractJson
      rcases h with h | h
      · have hnone : text.toList.findIdx? (· == '\x7b') = none :=
          List.findIdx?_eq_none_iff.mpr (fun c hcm => by simpa using h c hcm)
        simp only [hnone]
      · have hnone : text.toList.reverse.findIdx? (· == '\x7d') = none :=
          List.findIdx?_eq_none_iff.mpr
            (fun c hcm => by simpa using h c (List.mem_reverse.mp hcm))
        simp only [hnone]
        cases text.toList.findIdx? (· == '\x7b') <;> rfl
    simp only [responseEnvelope, pipeline, hx]
    exact ⟨rfl, rfl, rfl⟩
  · intro s e hx hp
    simp only [responseEnvelope, pipeline, hx, hp]
    exact ⟨rfl, rfl, rfl⟩

/-- C4 witness: a brace-free response is returned verbatim as
`unvalidated`, and a braced response whose substring fails to parse
reports the parser's error. -/
theorem C4_parse_fallback_witness :
    (rawResponse (runRequest noJsonOracle "s1"
        (ShortTermMemory.empty 10 4000) "hi") =
      some "ehm, sorry, no plan today") ∧
    (parseErrorField (runRequest badParseOracle "s2"
        (ShortTermMemory.empty 10 4000) "hi") =
      some "Expecting value: line 1 column 2") := by
  constructor
  · exact ((C4_parse_fallback noJsonOracle "s1"
      (ShortTermMemory.empty 10 4000) "hi" "ehm, sorry, no plan today"
      rfl rfl).1 (Or.inl (by decide))).2.1
  · exact ((C4_parse_fallback badParseOracle "s2"
      (ShortTermMemory.empty 10 4000) "hi" "look: \x7boops\x7d"
      rfl rfl).2 "\x7boops\x7d" "Expecting value: line 1 column 2"
      rfl rfl).2.2

/-- C9: `run_request` always returns a JSON-object envelope, and every
top-level failure — configuration error or completion-service error —
yields exactly the `\x7berror, status: "failed"\x7d` envelope rather
than an unhandled fault. -/
theorem C9_envelope_totality (o : Oracle) (sessionId : String)
    (mem0 : ShortTermMemory) (userInput : String) :
    (∃ fields, runRequest o sessionId mem0 userInput = .obj fields) ∧
    (∀ e, o.configOk = .error e →
      runRequest o sessionId mem0 userInput = failedEnvelope e) ∧
    (∀ e, o.configOk = .ok () → o.completion = .error e →
      runRequest o sessionId mem0 userInput = failedEnvelope e) := by
  refine ⟨?_, ?_, ?_⟩
  · cases hc : o.configOk with
    | error e =>
        refine ⟨[("error", .str e), ("status", .str "failed")], ?_⟩
        unfold runRequest runRequestE
        rw [hc]
        rfl
    | ok u =>
        cases u
        cases hr : o.completion with
        | error e =>
            refine ⟨[("error", .str e), ("status", .str "failed")], ?_⟩
            unfold runRequest runRequestE
            rw [hc, hr]
            rfl
        | ok text =>
            rw [runRequest_ok o sessionId mem0 userInput text hc hr]
            unfold responseEnvelope
            cases pipeline o.parse text with
            | validated tp => exact ⟨_, rfl⟩
            | parseFail e => exact ⟨_, rfl⟩
            | schemaFail e => exact ⟨_, rfl⟩
  · intro e hc
    unfold runRequest runRequestE
    rw [hc]
    rfl
  · intro e hc hr
    unfold runRequest runRequestE
    rw [hc, hr]
    rfl

/-- C9 witness: a failing configuration check yields the failed
envelope for its error. -/
theorem C9_envelope_totality_witness :
    runRequest badConfigOracle "s" (ShortTermMemory.empty 10 4000) "hi" =
      failedEnvelope "Missing AZURE_OPENAI_ENDPOINT" :=
  (C9_envelope_totality badConfigOracle "s"
    (ShortTermMemory.empty 10 4000) "hi").2.1
    "Missing AZURE_OPENAI_ENDPOINT" rfl

end TravelAgent
